import Mathlib

/-!
Verification of the Matterport data-extraction and normalization pipeline
(`backend/src/matterport_service.py`).

The Python code is shallowly embedded: JSON values and dynamically typed
Python values are modelled by `PyVal`, Python exceptions by `PyErr`, the
mutable `MatterportModelData` object by an explicit state record, and each
upstream HTTP interaction by an oracle (`MatterportEnv`) that fixes the
network outcome of every request the service can make.  Python `float`s are
modelled as exact rationals; the one concrete float identity any theorem
relies on — that the sum of the demo-room areas 35.5, 12.8, 18.2 and 6.5
equals exactly 73.0 — was checked by direct computation to hold of the IEEE
double evaluation as well, so the rational model agrees with the program on
every numeric value a theorem mentions.
-/

/-- A dynamically typed Python value (also the result of parsing JSON).
`int` and `float` are kept distinct because Python distinguishes them
(e.g. `range` accepts an `int` but raises `TypeError` on a `float`). -/
inductive PyVal where
  | none
  | bool (b : Bool)
  | int (n : Int)
  | float (q : ℚ)
  | str (s : String)
  | list (xs : List PyVal)
  | dict (kvs : List (String × PyVal))

/-- Python exceptions that the modelled code can raise. -/
inductive PyErr where
  | typeError (msg : String)
  | attributeError (msg : String)
  | keyError (msg : String)
  | valueError (msg : String)
  | indexError (msg : String)
  | zeroDivisionError
deriving DecidableEq

/-- Python truthiness (`bool(v)`): `None`, `False`, zero, and empty
containers/strings are falsy. -/
def pyTruthy : PyVal → Bool
  | .none => false
  | .bool b => b
  | .int n => n != 0
  | .float q => q != 0
  | .str s => !s.data.isEmpty
  | .list xs => !xs.isEmpty
  | .dict kvs => !kvs.isEmpty

/-- `d.get(k, dflt)`: raises `AttributeError` when the receiver is not a
dict, otherwise returns the stored value (even if it is `None`) or the
default when the key is absent. -/
def dictGetD (v : PyVal) (k : String) (dflt : PyVal) : Except PyErr PyVal :=
  match v with
  | .dict kvs => .ok ((kvs.lookup k).getD dflt)
  | _ => .error (.attributeError "object has no attribute get")

/-- `d.get(k)` (default `None`). -/
def dictGet (v : PyVal) (k : String) : Except PyErr PyVal :=
  dictGetD v k .none

/-- `v[k]` for a string key: `KeyError` when absent, `TypeError` when the
receiver is not a dict. -/
def getItemS (v : PyVal) (k : String) : Except PyErr PyVal :=
  match v with
  | .dict kvs =>
    match kvs.lookup k with
    | some x => .ok x
    | Option.none => .error (.keyError k)
  | _ => .error (.typeError "object is not subscriptable")

/-- `v[0]`, as used on the result list of `list_user_models`. -/
def index0 : PyVal → Except PyErr PyVal
  | .list [] => .error (.indexError "list index out of range")
  | .list (x :: _) => .ok x
  | .str s =>
    match s.data with
    | [] => .error (.indexError "string index out of range")
    | c :: _ => .ok (.str (String.singleton c))
  | .dict _ => .error (.keyError "0")
  | _ => .error (.typeError "object is not subscriptable")

/-- `v > 0`, as used on `room_count`; non-numeric operands raise
`TypeError` in Python 3. -/
def pyGt0 : PyVal → Except PyErr Bool
  | .int n => .ok (0 < n)
  | .float q => .ok (0 < q)
  | .bool b => .ok b
  | _ => .error (.typeError "not supported between instances")

/-- Number of iterations of `for i in range(v)`; `range` only accepts an
`int` (or `bool`, an `int` subclass). -/
def pyRangeLen : PyVal → Except PyErr Nat
  | .int n => .ok n.toNat
  | .bool b => .ok (if b then 1 else 0)
  | _ => .error (.typeError "object cannot be interpreted as an integer")

/-- Numeric view of a Python value, when it has one. -/
def pyNumQ : PyVal → Option ℚ
  | .int n => some (n : ℚ)
  | .float q => some q
  | .bool b => some (if b then 1 else 0)
  | _ => Option.none

/-- Python true division `a / b` (always a `float` on numbers). -/
def pyDivQ (a b : PyVal) : Except PyErr ℚ :=
  match pyNumQ a, pyNumQ b with
  | some x, some y => if y = 0 then .error .zeroDivisionError else .ok (x / y)
  | _, _ => .error (.typeError "unsupported operand type for division")

/-- `v[:8]`, as used on `model_data.id`; only sequences are sliceable. -/
def pySlice8 : PyVal → Except PyErr PyVal
  | .str s => .ok (.str (String.mk (s.data.take 8)))
  | .list xs => .ok (.list (xs.take 8))
  | _ => .error (.typeError "object is not subscriptable")

/-- Single-quote character, used by Python `repr` of strings. -/
def pyQuote : String := String.singleton (Char.ofNat 39)

/-- Floor of a rational, computably. -/
def qFloor (q : ℚ) : Int := q.num.fdiv q.den

/-- Decimal digits of a fractional part (0 ≤ r < 1), truncated at the
given fuel.  Only a rendering model for `str(float)`; no theorem depends
on its digits. -/
def fracDigits : Nat → ℚ → String
  | 0, _ => ""
  | n + 1, r =>
    if r = 0 then ""
    else
      let d := qFloor (r * 10)
      toString d ++ fracDigits n (r * 10 - (d : ℚ))

/-- Model of Python `str(x)` for a float: exact decimal rendering
(truncated at 17 fractional digits for non-terminating expansions). -/
def floatStr (q : ℚ) : String :=
  let sgn := if q < 0 then "-" else ""
  let a := |q|
  let ip := qFloor a
  let fr := a - (ip : ℚ)
  sgn ++ toString ip ++ "." ++ (if fr = 0 then "0" else fracDigits 17 fr)

mutual

/-- Python `repr(v)`. -/
def pyRepr : PyVal → String
  | .none => "None"
  | .bool true => "True"
  | .bool false => "False"
  | .int n => toString n
  | .float q => floatStr q
  | .str s => pyQuote ++ s ++ pyQuote
  | .list xs => "[" ++ String.intercalate ", " (pyReprList xs) ++ "]"
  | .dict kvs => "\x7b" ++ String.intercalate ", " (pyReprDict kvs) ++ "\x7d"

/-- `repr` of each element of a list. -/
def pyReprList : List PyVal → List String
  | [] => []
  | x :: xs => pyRepr x :: pyReprList xs

/-- `repr` of each `key: value` entry of a dict. -/
def pyReprDict : List (String × PyVal) → List String
  | [] => []
  | (k, v) :: kvs => (pyQuote ++ k ++ pyQuote ++ ": " ++ pyRepr v) :: pyReprDict kvs

end

/-- Python `str(v)` as used by f-string interpolation. -/
def pyStr : PyVal → String
  | .str s => s
  | v => pyRepr v

/-- `MatterportRoom` (pydantic model; construction is validated, so the
fields really have their annotated types). -/
structure MatterportRoom where
  id : String
  label : String
  tags : List String := []
  area_floor : Option ℚ := Option.none
  area_floor_indoor : Option ℚ := Option.none
  area_wall : Option ℚ := Option.none
  volume : Option ℚ := Option.none
  height : Option ℚ := Option.none
  units : String := "metric"
deriving DecidableEq

/-- `MatterportFloor` (pydantic model). -/
structure MatterportFloor where
  label : String
  area_floor : Option ℚ := Option.none
  area_floor_indoor : Option ℚ := Option.none
  area_wall : Option ℚ := Option.none
  volume : Option ℚ := Option.none
  units : String := "metric"
deriving DecidableEq

/-- `MatterportModelData`.  The fields that `extract_model_data` assigns
from upstream JSON are `PyVal`s: pydantic does not validate attribute
assignment, so after construction those attributes can hold any Python
value the upstream response supplied. -/
structure MatterportModelData where
  id : PyVal
  name : PyVal := .none
  description : PyVal := .none
  address_line1 : PyVal := .none
  address_line2 : PyVal := .none
  city : PyVal := .none
  state : PyVal := .none
  postal_code : PyVal := .none
  country : PyVal := .none
  total_area_floor : PyVal := .none
  total_area_floor_indoor : PyVal := .none
  total_volume : PyVal := .none
  units : String := "metric"
  rooms : List MatterportRoom := []
  floors : List MatterportFloor := []
  share_url : PyVal := .none
  embed_url : PyVal := .none
  created_at : PyVal := .none
  modified_at : PyVal := .none
  visibility : PyVal := .none

/-- Outcome of one outbound HTTP request: an exception inside the client
(timeout, connection error, ...), or a response with a status code, body
text, and the result of parsing the body as JSON (`Option.none` when the
body is not valid JSON). -/
inductive NetOutcome where
  | exn (msg : String)
  | http (status : Int) (text : String) (body : Option PyVal)

/-- Oracle fixing the configuration of the service and the network outcome
of every request `extract_model_data` can issue: the basic GraphQL query
(keyed by the requested model id), the ListModels query, the extended
GraphQL query and the REST fallback (both keyed by the — possibly
substituted, possibly non-string — id they are issued for). -/
structure MatterportEnv where
  configured : Bool
  basicOutcome : String → NetOutcome
  listOutcome : NetOutcome
  extendedOutcome : PyVal → NetOutcome
  restOutcome : PyVal → NetOutcome

/-- Strategy-body computations: explicit state passing for the mutable
`model_data` object plus Python exceptions.  An exception carries the
state as mutated so far, exactly as in-place mutation behaves under
`try/except`. -/
def PyM (α : Type) : Type := MatterportModelData → Except PyErr α × MatterportModelData

/-- Monadic return. -/
def PyM.pure {α : Type} (a : α) : PyM α := fun s => (Except.ok a, s)

/-- Monadic bind: an exception aborts the rest of the block but keeps the
mutations already performed. -/
def PyM.bind {α β : Type} (x : PyM α) (f : α → PyM β) : PyM β := fun s =>
  match x s with
  | (Except.ok a, s2) => f a s2
  | (Except.error e, s2) => (Except.error e, s2)

instance : Monad PyM where
  pure := PyM.pure
  bind := PyM.bind

/-- Lift a pure fallible computation. -/
def liftE {α : Type} (r : Except PyErr α) : PyM α := fun s => (r, s)

/-- Read the current `model_data`. -/
def getS : PyM MatterportModelData := fun s => (Except.ok s, s)

/-- Mutate `model_data`. -/
def modifyS (f : MatterportModelData → MatterportModelData) : PyM Unit :=
  fun s => (Except.ok () , f s)

/-- `try: body except Exception: log` — the handler only logs, so the
result is the state after the body, whether or not it raised. -/
def runCaught (body : PyM Unit) (s : MatterportModelData) : MatterportModelData :=
  (body s).2

/-- The error dictionary `_execute_query` builds for transport errors,
non-200 statuses, unparseable bodies and its own caught exceptions. -/
def errorResult (msg : String) : PyVal :=
  .dict [("data", .none), ("errors", .list [.str msg])]

/-- `MatterportService._execute_query`: returns the parsed 200 JSON body
when it is a dict (the subsequent `result.get(...)` probes succeed), and
an `errorResult` dict in every other case — unconfigured credentials,
client exception, non-200 status, unparseable body, or a body on which
`.get` raises (caught by its own `try`). -/
def execute_query (configured : Bool) (outcome : NetOutcome) : PyVal :=
  if configured = false then errorResult "API not configured"
  else
    match outcome with
    | .exn msg => errorResult msg
    | .http status text body =>
      if status = 200 then
        match body with
        | some (.dict kvs) => .dict kvs
        | some _ => errorResult "object has no attribute get"
        | Option.none => errorResult "Expecting value"
      else errorResult ("HTTP " ++ toString status ++ ": " ++ text)

/-- `MatterportService.get_model_via_rest`: `{"data": body}` on a 200
response with parseable JSON, `{"error": ...}` otherwise; all exceptions
are caught inside the method. -/
def get_model_via_rest (configured : Bool) (outcome : NetOutcome) : PyVal :=
  if configured = false then .dict [("error", .str "API not configured")]
  else
    match outcome with
    | .exn msg => .dict [("error", .str msg)]
    | .http status _text body =>
      if status = 200 then
        match body with
        | some j => .dict [("data", j)]
        | Option.none => .dict [("error", .str "Expecting value")]
      else .dict [("error", .str ("HTTP " ++ toString status))]

/-- Result dict of strategy 1's basic GraphQL query. -/
def basicResult (env : MatterportEnv) (model_id : String) : PyVal :=
  execute_query env.configured (env.basicOutcome model_id)

/-- Result dict of `list_user_models`. -/
def listResult (env : MatterportEnv) : PyVal :=
  execute_query env.configured env.listOutcome

/-- Result dict of strategy 2's extended GraphQL query, issued for the
(possibly substituted) id. -/
def extendedResult (env : MatterportEnv) (idv : PyVal) : PyVal :=
  execute_query env.configured (env.extendedOutcome idv)

/-- The condition `basic_info.get("data") and basic_info["data"].get("model")`
of strategy 1, with Python's short-circuit evaluation and its exception
behaviour on non-dict values. -/
def strat1Cond (env : MatterportEnv) (model_id : String) : Except PyErr Bool := do
  let dataV ← dictGet (basicResult env model_id) "data"
  if pyTruthy dataV then
    let d ← getItemS (basicResult env model_id) "data"
    let m ← dictGet d "model"
    pure (pyTruthy m)
  else pure false

/-- `len(v)`: `TypeError` for values without a length. -/
def pyLen : PyVal → Except PyErr Nat
  | .str s => .ok s.data.length
  | .list xs => .ok xs.length
  | .dict kvs => .ok kvs.length
  | _ => .error (.typeError "object has no len")

/-- The elements iterated by `for model in models[:3]`: the first three
elements of a list, or the first three characters of a string (as
one-character strings); slicing anything else — including a dict —
raises `TypeError`. -/
def pySlice3Elems : PyVal → Except PyErr (List PyVal)
  | .list xs => .ok (xs.take 3)
  | .str s => .ok ((s.data.take 3).map (fun c => .str (String.singleton c)))
  | _ => .error (.typeError "object is not subscriptable")

/-- The logging loop of `list_user_models`: for each of the first three
results, the f-string evaluates `model.get("id")` and
`model.get("name")` unconditionally, raising on a non-dict element. -/
def probeModels : List PyVal → Except PyErr Unit
  | [] => .ok ()
  | m :: ms => do
    let _ ← dictGet m "id"
    let _ ← dictGet m "name"
    probeModels ms

/-- Strategy 1's fallback listing step: the body of `list_user_models`
after its query — including its unconditional logging probes
`len(models)`, `models[:3]` and the `.get("id")`/`.get("name")` calls on
the first three results, any of which can raise and abort the fallback —
followed by strategy 1's re-reading of the same response dict.  Yields
`Except.ok (some models)` when the (twice-evaluated, identical) condition
`….get("data") and …["data"].get("models")` holds and
`…["data"]["models"].get("results", [])` evaluates to `models`;
`Except.ok Option.none` when the condition is falsy (the source then does
nothing). -/
def listModelsStep (env : MatterportEnv) : Except PyErr (Option PyVal) := do
  let u := listResult env
  let udataV ← dictGet u "data"
  let c ← if pyTruthy udataV then do
      let ud ← getItemS u "data"
      let ms ← dictGet ud "models"
      pure (pyTruthy ms)
    else pure false
  if c then do
    let ud ← getItemS u "data"
    let msV ← getItemS ud "models"
    let models0 ← dictGetD msV "results" (.list [])
    let _ ← pyLen models0
    let firstThree ← pySlice3Elems models0
    probeModels firstThree
    let ud2 ← getItemS u "data"
    let msV2 ← getItemS ud2 "models"
    let r ← dictGetD msV2 "results" (.list [])
    pure (some r)
  else pure Option.none

/-- The name `"User's First Model"` used when the substituted model has no
`name` field. -/
def userFirstModelName : String := "User" ++ pyQuote ++ "s First Model"

/-- Strategy 1 of `extract_model_data`: basic info via GraphQL, with the
model-not-found fallback that lists the user's models and substitutes the
first one, or assigns `"Model <id> (Not Found)"` when that list is empty. -/
def strategy1 (env : MatterportEnv) (model_id : String) : PyM Unit := do
  let cond ← liftE (strat1Cond env model_id)
  if cond then do
    let d ← liftE (getItemS (basicResult env model_id) "data")
    let model ← liftE (getItemS d "model")
    let nameV ← liftE (dictGetD model "name" (.str ("Matterport Model " ++ model_id)))
    modifyS fun md => { md with name := nameV }
    let createdV ← liftE (dictGet model "created")
    modifyS fun md => { md with created_at := createdV }
  else do
    let mr ← liftE (listModelsStep env)
    match mr with
    | some models =>
      if pyTruthy models then do
        let first_model ← liftE (index0 models)
        let idV ← liftE (dictGetD first_model "id" (.str model_id))
        modifyS fun md => { md with id := idV }
        let nameV ← liftE (dictGetD first_model "name" (.str userFirstModelName))
        modifyS fun md => { md with name := nameV }
      else
        modifyS fun md => { md with name := .str ("Model " ++ model_id ++ " (Not Found)") }
    | Option.none => PyM.pure ()

/-- The condition `extended_info.get("data") and extended_info["data"].get("model")`
of strategy 2. -/
def strat2Cond (env : MatterportEnv) (idv : PyVal) : Except PyErr Bool := do
  let dataV ← dictGet (extendedResult env idv) "data"
  if pyTruthy dataV then
    let d ← getItemS (extendedResult env idv) "data"
    let m ← dictGet d "model"
    pure (pyTruthy m)
  else pure false

/-- `extended_info["data"]["model"]`, re-indexed as in the source. -/
def strat2Model (env : MatterportEnv) (idv : PyVal) : Except PyErr PyVal := do
  let d ← getItemS (extendedResult env idv) "data"
  getItemS d "model"

/-- The synthetic rooms strategy 2 appends: `room_count` generically
labelled rooms, all with the same (optional) evenly divided area.  The
per-iteration area expression in the source is loop-invariant and is
hoisted here. -/
def mkStrat2Rooms (n : Nat) (areaOpt : Option ℚ) : List MatterportRoom :=
  (List.range n).map fun i =>
    { id := "room_" ++ toString (i + 1)
      label := "Habitación " ++ toString (i + 1)
      area_floor := areaOpt }

/-- Strategy 2 of `extract_model_data`: optional enrichment with the
`modified` timestamp and the `summary` object (`total_area`,
`room_count`), synthesizing generically labelled rooms. -/
def strategy2 (env : MatterportEnv) : PyM Unit := do
  let s0 ← getS
  let cond ← liftE (strat2Cond env s0.id)
  if cond then do
    let model ← liftE (strat2Model env s0.id)
    let modV ← liftE (dictGet model "modified")
    modifyS fun md => { md with modified_at := modV }
    let sumV ← liftE (dictGet model "summary")
    if pyTruthy sumV then do
      let summary ← liftE (getItemS model "summary")
      let taV ← liftE (dictGet summary "total_area")
      modifyS fun md => { md with total_area_floor := taV }
      let rcV ← liftE (dictGetD summary "room_count" (.int 0))
      let gt ← liftE (pyGt0 rcV)
      if gt then do
        let n ← liftE (pyRangeLen rcV)
        let s1 ← getS
        let areaOpt ← if pyTruthy s1.total_area_floor
          then do
            let q ← liftE (pyDivQ s1.total_area_floor rcV)
            PyM.pure (some q)
          else PyM.pure Option.none
        modifyS fun md => { md with rooms := md.rooms ++ mkStrat2Rooms n areaOpt }
      else PyM.pure ()
    else PyM.pure ()
  else PyM.pure ()

/-- Strategy 3 of `extract_model_data`: REST fallback; adopts the REST
`name` only when the model still has no (truthy) name. -/
def strategy3 (env : MatterportEnv) : PyM Unit := do
  let s0 ← getS
  let rest_info := get_model_via_rest env.configured (env.restOutcome s0.id)
  let dataV ← liftE (dictGet rest_info "data")
  if pyTruthy dataV then do
    let rest_model ← liftE (getItemS rest_info "data")
    let nV ← liftE (dictGet rest_model "name")
    let s1 ← getS
    if pyTruthy nV && !pyTruthy s1.name then do
      let nameV ← liftE (getItemS rest_model "name")
      modifyS fun md => { md with name := nameV }
    else PyM.pure ()
  else PyM.pure ()

/-- The fixed synthetic four-room demo set injected when extraction
produced no rooms. -/
def demo_rooms : List MatterportRoom :=
  [ { id := "living", label := "Living", area_floor := some 35.5 },
    { id := "kitchen", label := "Cocina", area_floor := some 12.8 },
    { id := "bedroom1", label := "Dormitorio Principal", area_floor := some 18.2 },
    { id := "bathroom", label := "Baño", area_floor := some 6.5 } ]

/-- `sum(room.area_floor or 0 for room in demo_rooms)`. -/
def demoRoomsSum : ℚ :=
  demo_rooms.foldl (fun acc r => acc + (match r.area_floor with
    | some a => if a ≠ 0 then a else 0
    | Option.none => 0)) 0

/-- The post-strategy finalization of `extract_model_data`: placeholder
name when the name is still falsy (this slices `model_data.id`, which can
raise when the substituted id is not a sliceable value — the one spot of
the method outside any `try`), then demo-room injection when no rooms were
produced. -/
def finalize (md : MatterportModelData) : Except PyErr MatterportModelData := do
  let md1 ← if pyTruthy md.name then Except.ok md
    else do
      let sliced ← pySlice8 md.id
      Except.ok { md with name := .str ("Propiedad Matterport " ++ pyStr sliced) }
  if md1.rooms.isEmpty then
    Except.ok { md1 with rooms := demo_rooms, total_area_floor := .float demoRoomsSum }
  else Except.ok md1

/-- Fresh `MatterportModelData(id=model_id)`. -/
def initMd (model_id : String) : MatterportModelData := { id := .str model_id }

/-- State after strategy 1 (its `try/except` absorbs any exception). -/
def afterS1 (env : MatterportEnv) (model_id : String) : MatterportModelData :=
  runCaught (strategy1 env model_id) (initMd model_id)

/-- State after strategy 2. -/
def afterS2 (env : MatterportEnv) (model_id : String) : MatterportModelData :=
  runCaught (strategy2 env) (afterS1 env model_id)

/-- State after strategy 3. -/
def afterS3 (env : MatterportEnv) (model_id : String) : MatterportModelData :=
  runCaught (strategy3 env) (afterS2 env model_id)

/-- `MatterportService.extract_model_data`: the three caught strategies in
sequence followed by the (uncaught) finalization. -/
def extract_model_data (env : MatterportEnv) (model_id : String) :
    Except PyErr MatterportModelData :=
  finalize (afterS3 env model_id)

/-- Round to the nearest integer, ties to even — the rounding Python's
fixed-point float formatting applies. -/
def roundHalfEven (x : ℚ) : Int :=
  let f := qFloor x
  let r := x - (f : ℚ)
  if r < 1/2 then f
  else if 1/2 < r then f + 1
  else if f % 2 = 0 then f else f + 1

/-- `f"{q:.1f}"` for an actual float value. -/
def fmt1 (q : ℚ) : String :=
  let n := roundHalfEven (q * 10)
  let sgn := if n < 0 then "-" else ""
  let m := n.natAbs
  sgn ++ toString (m / 10) ++ "." ++ toString (m % 10)

/-- `f"{v:.1f}"` on a dynamically typed value: formats numbers, raises on
anything else (`ValueError` for strings carrying the format spec to
`str.__format__`, `TypeError` otherwise). -/
def pyFormat1f : PyVal → Except PyErr String
  | .float q => .ok (fmt1 q)
  | .int n => .ok (fmt1 (n : ℚ))
  | .bool b => .ok (if b then "1.0" else "0.0")
  | .str _ => .error (.valueError "Unknown format code f for object of type str")
  | _ => .error (.typeError "unsupported format string")

/-- `", ".join(xs)`: `TypeError` when an element is not a string. -/
def joinComma (xs : List PyVal) : Except PyErr String := do
  let ss ← xs.mapM fun v =>
    match v with
    | .str s => Except.ok s
    | _ => Except.error (.typeError "sequence item: expected str instance")
  pure (String.intercalate ", " ss)

/-- One room's entry in the `Habitaciones` section: the label, plus
`" (<area> <unit>)"` when `room.area_floor` is truthy. -/
def room_desc (room : MatterportRoom) : String :=
  match room.area_floor with
  | some a =>
    if a ≠ 0 then
      room.label ++ " (" ++ fmt1 a ++ " " ++ (if room.units = "metric" then "m²" else "ft²") ++ ")"
    else room.label
  | Option.none => room.label

/-- The `Propiedad` section of the agent context (omitted when the name
is falsy). -/
def nameSection (md : MatterportModelData) : List String :=
  if pyTruthy md.name then ["Propiedad: " ++ pyStr md.name] else []

/-- The `Descripción` section. -/
def descSection (md : MatterportModelData) : List String :=
  if pyTruthy md.description then ["Descripción: " ++ pyStr md.description] else []

/-- The `address_parts` list: `address_line1` and `city`, each when
truthy. -/
def addressParts (md : MatterportModelData) : List PyVal :=
  (if pyTruthy md.address_line1 then [md.address_line1] else []) ++
    (if pyTruthy md.city then [md.city] else [])

/-- The `Ubicación` section: omitted entirely when `address_parts` is
empty; `", ".join` can raise on non-string values. -/
def addressSection (md : MatterportModelData) : Except PyErr (List String) :=
  if (addressParts md).isEmpty then .ok []
  else
    match joinComma (addressParts md) with
    | .error e => .error e
    | .ok j => .ok ["Ubicación: " ++ j]

/-- The `Área total` section, formatted with `:.1f` and a unit suffix. -/
def areaSection (md : MatterportModelData) : Except PyErr (List String) :=
  if pyTruthy md.total_area_floor then
    match pyFormat1f md.total_area_floor with
    | .error e => .error e
    | .ok a =>
      .ok ["Área total: " ++ a ++ " " ++ (if md.units = "metric" then "m²" else "ft²")]
  else .ok []

/-- The `Habitaciones` section: the comma-joined room descriptions, in
the declared order of `md.rooms`. -/
def roomsSection (md : MatterportModelData) : List String :=
  if md.rooms.isEmpty then []
  else ["Habitaciones: " ++ String.intercalate ", " (md.rooms.map room_desc)]

/-- The `context_parts` list that `format_for_agent_context` builds:
name, description, address, total area and rooms sections, appended in
that order, each omitted when its data is falsy. -/
def context_parts (md : MatterportModelData) : Except PyErr (List String) :=
  match addressSection md with
  | .error e => .error e
  | .ok p3 =>
    match areaSection md with
    | .error e => .error e
    | .ok p4 =>
      .ok (nameSection md ++ descSection md ++ p3 ++ p4 ++ roomsSection md)

/-- `MatterportService.format_for_agent_context`:
`". ".join(context_parts) + "."`. -/
def format_for_agent_context (md : MatterportModelData) : Except PyErr String :=
  match context_parts md with
  | .error e => .error e
  | .ok parts => .ok (String.intercalate ". " parts ++ ".")

/-- `v` is a non-empty Python string. -/
def isNonEmptyStr : PyVal → Bool
  | .str s => !s.data.isEmpty
  | _ => false

/-- `s` starts with `p` (character-list level, so it reduces even when
only a prefix of `s` is known). -/
def strHeads (p s : String) : Bool := p.data.isPrefixOf s.data

/-- `s` is an `Ubicación` (location) section. -/
def locHeads (s : String) : Bool := strHeads "Ubicación" s

/-- `s` ends with a period. -/
def endsWithDot (s : String) : Bool := s.data.getLast? == some ('.' : Char)

/-- Unconfigured service (`token_id=None`): every strategy
short-circuits, whatever the network would have answered. -/
def envU : MatterportEnv :=
  ⟨false, fun _ => .exn "unused", .exn "unused", fun _ => .exn "unused", fun _ => .exn "unused"⟩

/-- The `ModelData` the unconfigured service produces for `"x"`: the
placeholder name and the synthetic demo rooms. -/
def md_demo_x : MatterportModelData :=
  { id := .str "x"
    name := .str "Propiedad Matterport x"
    total_area_floor := .float demoRoomsSum
    rooms := demo_rooms }

/-- Upstream responses on which `extract_model_data` raises: the basic
query reports the model absent, the user-model listing answers 200 with a
first model whose `id` is the JSON number `7` and whose `name` is JSON
`null`, and the remaining requests time out. -/
def envCrash : MatterportEnv :=
  ⟨true, fun _ => .http 200 "" (some (.dict [("data", .none)])),
    .http 200 "" (some (.dict [("data", .dict [("models", .dict [("results",
      .list [.dict [("id", .int 7), ("name", .none)]])])])])),
    fun _ => .exn "timeout", fun _ => .exn "timeout"⟩

/-- Upstream responses whose basic query answers a model whose `name` is
the JSON number `5`; the remaining requests time out. -/
def envC3 : MatterportEnv :=
  ⟨true, fun _ => .http 200 "" (some (.dict [("data", .dict [("model",
      .dict [("name", .int 5)])])])),
    .exn "timeout", fun _ => .exn "timeout", fun _ => .exn "timeout"⟩

/-- Upstream responses where the model is absent and the user-model
listing answers an empty `results` list; the remaining requests time
out. -/
def envC5 : MatterportEnv :=
  ⟨true, fun _ => .http 200 "" (some (.dict [("data", .none)])),
    .http 200 "" (some (.dict [("data", .dict [("models", .dict [("results", .list [])])])])),
    fun _ => .exn "timeout", fun _ => .exn "timeout"⟩

/-- Upstream responses where the basic query answers a model named `"N"`
and the extended query answers a summary with `total_area = 50.0` and
`room_count = 2`; the REST request times out. -/
def envC6 : MatterportEnv :=
  ⟨true, fun _ => .http 200 "" (some (.dict [("data", .dict [("model",
      .dict [("name", .str "N")])])])),
    .exn "timeout",
    fun _ => .http 200 "" (some (.dict [("data", .dict [("model", .dict [("summary",
      .dict [("total_area", .float 50), ("room_count", .int 2)])])])])),
    fun _ => .exn "timeout"⟩

/-- Like `envC6`, but the summary carries no `total_area`, only
`room_count = 2`. -/
def envC6w : MatterportEnv :=
  ⟨true, fun _ => .http 200 "" (some (.dict [("data", .dict [("model",
      .dict [("name", .str "N")])])])),
    .exn "timeout",
    fun _ => .http 200 "" (some (.dict [("data", .dict [("model", .dict [("summary",
      .dict [("room_count", .int 2)])])])])),
    fun _ => .exn "timeout"⟩

/-- The summary dict of `envC6w`. -/
def skvsC6w : List (String × PyVal) := [("room_count", .int 2)]

/-- The model dict of `envC6w`'s extended response. -/
def mkvsC6w : List (String × PyVal) := [("summary", .dict skvsC6w)]

/-- The `ModelData` produced for `envC6w`: two generically labelled
rooms without areas. -/
def md_c6w_result : MatterportModelData :=
  { id := .str "x"
    name := .str "N"
    rooms := mkStrat2Rooms 2 Option.none }

/-- The E2E scenario of the spec: model not found, the user-model listing
answers one model `{id: "m2", name: "Loft"}`, and the extended and REST
requests fail. -/
def envC7 : MatterportEnv :=
  ⟨true, fun _ => .http 200 "" (some (.dict [("data", .none)])),
    .http 200 "" (some (.dict [("data", .dict [("models", .dict [("results",
      .list [.dict [("id", .str "m2"), ("name", .str "Loft")]])])])])),
    fun _ => .exn "timeout", fun _ => .exn "timeout"⟩

/-- A `ModelData` with no name, description, address data, total area, or
rooms. -/
def md_empty : MatterportModelData := { id := .str "x" }

/-- A `ModelData` with a name and two area-less rooms, used to exercise
the formatter. -/
def md_fmt_w : MatterportModelData :=
  { id := .str "x"
    name := .str "Casa"
    rooms := [ { id := "r1", label := "Sala" }, { id := "r2", label := "Patio" } ] }

section ProofSupport

@[simp] lemma PyM_bind_apply {α β : Type} (x : PyM α) (f : α → PyM β) (s : MatterportModelData) :
    (x >>= f) s = match x s with
      | (Except.ok a, s2) => f a s2
      | (Except.error e, s2) => (Except.error e, s2) := rfl

@[simp] lemma PyM_pure_apply {α : Type} (a : α) (s : MatterportModelData) :
    (PyM.pure a) s = (Except.ok a, s) := rfl

@[simp] lemma PyM_monad_pure_apply {α : Type} (a : α) (s : MatterportModelData) :
    (pure a : PyM α) s = (Except.ok a, s) := rfl

@[simp] lemma liftE_apply {α : Type} (r : Except PyErr α) (s : MatterportModelData) :
    liftE r s = (r, s) := rfl

@[simp] lemma getS_apply (s : MatterportModelData) : getS s = (Except.ok s, s) := rfl

@[simp] lemma modifyS_apply (f : MatterportModelData → MatterportModelData) (s : MatterportModelData) :
    modifyS f s = (Except.ok () , f s) := rfl

/-- Appending to a non-empty string keeps it truthy. -/
lemma pyTruthy_str_append (a t : String) (h : pyTruthy (.str a) = true) :
    pyTruthy (.str (a ++ t)) = true := by
  cases a with
  | mk l =>
    cases t with
    | mk m =>
      cases l with
      | nil => simp [pyTruthy] at h
      | cons c cs => rfl

/-- Strategy 3 only ever writes `name`: `id`, `rooms` and
`total_area_floor` (and everything else) are untouched. -/
lemma strategy3_preserves (env : MatterportEnv) (s : MatterportModelData) :
    ((strategy3 env) s).2.id = s.id ∧ ((strategy3 env) s).2.rooms = s.rooms ∧
    ((strategy3 env) s).2.total_area_floor = s.total_area_floor := by
  simp only [strategy3, PyM_bind_apply, getS_apply, liftE_apply, modifyS_apply, PyM_pure_apply]
  repeat' split <;> simp_all

/-- Strategy 3 keeps a truthy `name` unchanged. -/
lemma strategy3_keeps_truthy_name (env : MatterportEnv) (s : MatterportModelData)
    (h : pyTruthy s.name = true) : ((strategy3 env) s).2.name = s.name := by
  simp only [strategy3, PyM_bind_apply, getS_apply, liftE_apply, modifyS_apply, PyM_pure_apply]
  repeat' split <;> simp_all

/-- `m` leaves the view `f` of the state unchanged, whether or not it
raises. -/
def Preserves {α γ : Type} (m : PyM α) (f : MatterportModelData → γ) : Prop :=
  ∀ s, f ((m s).2) = f s

lemma preserves_bind {α β γ : Type} {x : PyM α} {k : α → PyM β}
    {f : MatterportModelData → γ} (hx : Preserves x f) (hk : ∀ a, Preserves (k a) f) :
    Preserves (x >>= k) f := by
  intro s
  simp only [PyM_bind_apply]
  rcases hxs : x s with ⟨r, s2⟩
  have h2 : f s2 = f s := by
    have h3 := hx s
    rw [hxs] at h3
    exact h3
  cases r with
  | error e => simpa using h2
  | ok a =>
    simp only []
    rw [hk a s2, h2]

lemma preserves_liftE {α γ : Type} (r : Except PyErr α) (f : MatterportModelData → γ) :
    Preserves (liftE r) f := fun _ => rfl

lemma preserves_getS {γ : Type} (f : MatterportModelData → γ) : Preserves getS f :=
  fun _ => rfl

lemma preserves_pure {α γ : Type} (a : α) (f : MatterportModelData → γ) :
    Preserves (PyM.pure a) f := fun _ => rfl

lemma preserves_ite {α γ : Type} {c : Prop} [Decidable c] {A B : PyM α}
    {f : MatterportModelData → γ} (hA : Preserves A f) (hB : Preserves B f) :
    Preserves (if c then A else B) f := by
  by_cases h : c <;> simp [h, hA, hB]

lemma preserves_modifyS {γ : Type} {g : MatterportModelData → MatterportModelData}
    {f : MatterportModelData → γ} (h : ∀ s, f (g s) = f s) : Preserves (modifyS g) f :=
  fun s => h s

/-- Strategy 2 only writes `modified_at`, `total_area_floor` and `rooms`:
any view insensitive to those fields is preserved. -/
lemma strategy2_preserves_view {γ : Type} (env : MatterportEnv) (f : MatterportModelData → γ)
    (h1 : ∀ md v, f { md with modified_at := v } = f md)
    (h2 : ∀ md v, f { md with total_area_floor := v } = f md)
    (h3 : ∀ md rs, f { md with rooms := rs } = f md) :
    Preserves (strategy2 env) f := by
  unfold strategy2
  refine preserves_bind (preserves_getS f) fun s0 => ?_
  refine preserves_bind (preserves_liftE _ f) fun cond => ?_
  refine preserves_ite ?_ (preserves_pure _ f)
  refine preserves_bind (preserves_liftE _ f) fun model => ?_
  refine preserves_bind (preserves_liftE _ f) fun modV => ?_
  refine preserves_bind (preserves_modifyS fun s => h1 s modV) fun _ => ?_
  refine preserves_bind (preserves_liftE _ f) fun sumV => ?_
  refine preserves_ite ?_ (preserves_pure _ f)
  refine preserves_bind (preserves_liftE _ f) fun summary => ?_
  refine preserves_bind (preserves_liftE _ f) fun taV => ?_
  refine preserves_bind (preserves_modifyS fun s => h2 s taV) fun _ => ?_
  refine preserves_bind (preserves_liftE _ f) fun rcV => ?_
  refine preserves_bind (preserves_liftE _ f) fun gt => ?_
  refine preserves_ite ?_ (preserves_pure _ f)
  refine preserves_bind (preserves_liftE _ f) fun n => ?_
  refine preserves_bind (preserves_getS f) fun s1 => ?_
  refine preserves_ite ?_ ?_
  · refine preserves_bind (preserves_liftE _ f) fun q => ?_
    refine preserves_bind (preserves_pure _ f) fun y => ?_
    exact preserves_modifyS fun s => h3 s (s.rooms ++ mkStrat2Rooms n y)
  · refine preserves_bind (preserves_pure _ f) fun y => ?_
    exact preserves_modifyS fun s => h3 s (s.rooms ++ mkStrat2Rooms n y)

/-- Strategy 2 never writes `id` or `name`. -/
lemma strategy2_preserves (env : MatterportEnv) (s : MatterportModelData) :
    ((strategy2 env) s).2.id = s.id ∧ ((strategy2 env) s).2.name = s.name :=
  ⟨strategy2_preserves_view env (fun md => md.id) (fun _ _ => rfl) (fun _ _ => rfl)
      (fun _ _ => rfl) s,
    strategy2_preserves_view env (fun md => md.name) (fun _ _ => rfl) (fun _ _ => rfl)
      (fun _ _ => rfl) s⟩

/-- Strategy 1 only writes `name`, `created_at` and `id`: any view
insensitive to those fields is preserved. -/
lemma strategy1_preserves_view {γ : Type} (env : MatterportEnv) (model_id : String)
    (f : MatterportModelData → γ)
    (h1 : ∀ md v, f { md with name := v } = f md)
    (h2 : ∀ md v, f { md with created_at := v } = f md)
    (h3 : ∀ md v, f { md with id := v } = f md) :
    Preserves (strategy1 env model_id) f := by
  unfold strategy1
  refine preserves_bind (preserves_liftE _ f) fun cond => ?_
  refine preserves_ite ?_ ?_
  · refine preserves_bind (preserves_liftE _ f) fun d => ?_
    refine preserves_bind (preserves_liftE _ f) fun model => ?_
    refine preserves_bind (preserves_liftE _ f) fun nameV => ?_
    refine preserves_bind (preserves_modifyS fun s => h1 s nameV) fun _ => ?_
    refine preserves_bind (preserves_liftE _ f) fun createdV => ?_
    exact preserves_modifyS fun s => h2 s createdV
  · refine preserves_bind (preserves_liftE _ f) fun mr => ?_
    cases mr with
    | some models =>
      refine preserves_ite ?_ (preserves_modifyS fun s => h1 s _)
      refine preserves_bind (preserves_liftE _ f) fun first_model => ?_
      refine preserves_bind (preserves_liftE _ f) fun idV => ?_
      refine preserves_bind (preserves_modifyS fun s => h3 s idV) fun _ => ?_
      refine preserves_bind (preserves_liftE _ f) fun nameV => ?_
      exact preserves_modifyS fun s => h1 s nameV
    | none => exact preserves_pure _ f

/-- Strategy 1 never writes `rooms` or `total_area_floor`. -/
lemma strategy1_preserves (env : MatterportEnv) (model_id : String) (s : MatterportModelData) :
    ((strategy1 env model_id) s).2.rooms = s.rooms ∧
    ((strategy1 env model_id) s).2.total_area_floor = s.total_area_floor :=
  ⟨strategy1_preserves_view env model_id (fun md => md.rooms) (fun _ _ => rfl)
      (fun _ _ => rfl) (fun _ _ => rfl) s,
    strategy1_preserves_view env model_id (fun md => md.total_area_floor) (fun _ _ => rfl)
      (fun _ _ => rfl) (fun _ _ => rfl) s⟩

end ProofSupport

section FinalizeLemmas

/-- When finalization succeeds, the returned rooms are the demo set
exactly when the strategies produced none, and otherwise the produced
rooms unchanged. -/
lemma finalize_ok_rooms (md d : MatterportModelData) (h : finalize md = Except.ok d) :
    d.rooms = if md.rooms.isEmpty then demo_rooms else md.rooms := by
  unfold finalize at h
  by_cases hn : pyTruthy md.name = true
  · simp only [hn, if_true] at h
    by_cases hr : md.rooms.isEmpty = true <;>
      simp only [hr, Bind.bind, Except.bind, if_true, if_false, Bool.not_eq_true] at h <;>
      cases h <;> simp [hr]
  · simp only [hn, if_false, Bool.not_eq_true] at h
    cases hs : pySlice8 md.id with
    | error e => simp [Bind.bind, Except.bind, hs] at h
    | ok sliced =>
      simp only [Bind.bind, Except.bind, hs] at h
      by_cases hr : md.rooms.isEmpty = true <;> simp only [hr, if_true, if_false] at h <;>
        cases h <;> simp [hr]

/-- When finalization succeeds, the returned name is truthy: a falsy name
is replaced by the non-empty placeholder string. -/
lemma finalize_ok_name_truthy (md d : MatterportModelData) (h : finalize md = Except.ok d) :
    pyTruthy d.name = true := by
  unfold finalize at h
  by_cases hn : pyTruthy md.name = true
  · simp only [hn, if_true] at h
    by_cases hr : md.rooms.isEmpty = true <;>
      simp only [hr, Bind.bind, Except.bind, if_true, if_false] at h <;>
      cases h <;> simpa using hn
  · simp only [hn, if_false, Bool.not_eq_true] at h
    cases hs : pySlice8 md.id with
    | error e => simp [Bind.bind, Except.bind, hs] at h
    | ok sliced =>
      simp only [Bind.bind, Except.bind, hs] at h
      have hne : pyTruthy (.str ("Propiedad Matterport " ++ pyStr sliced)) = true :=
        pyTruthy_str_append "Propiedad Matterport " (pyStr sliced) rfl
      by_cases hr : md.rooms.isEmpty = true <;> simp only [hr, if_true, if_false] at h <;>
        cases h <;> simpa using hne

/-- A truthy name makes finalization succeed, keeping `id` and `name`. -/
lemma finalize_of_truthy_name (md : MatterportModelData) (hn : pyTruthy md.name = true) :
    finalize md = Except.ok (if md.rooms.isEmpty
      then { md with rooms := demo_rooms, total_area_floor := .float demoRoomsSum }
      else md) := by
  unfold finalize
  by_cases hr : md.rooms.isEmpty = true <;>
    simp [hn, hr, Bind.bind, Except.bind]

end FinalizeLemmas

section StrategyEvalLemmas

@[simp] lemma pyTruthy_none : pyTruthy PyVal.none = false := rfl

@[simp] lemma pyTruthy_dict (kvs : List (String × PyVal)) :
    pyTruthy (PyVal.dict kvs) = !kvs.isEmpty := rfl

@[simp] lemma pyTruthy_pylist (xs : List PyVal) :
    pyTruthy (PyVal.list xs) = !xs.isEmpty := rfl

@[simp] lemma pyTruthy_pystr (s : String) :
    pyTruthy (PyVal.str s) = !s.data.isEmpty := rfl

/-- Strategy 1 when the basic query reports the model absent and the
user-model listing yields a falsy `results` value: the original id is
kept and the name becomes `"Model <id> (Not Found)"`. -/
lemma strategy1_notfound_empty (env : MatterportEnv) (mid : String) (r : PyVal)
    (h1 : strat1Cond env mid = Except.ok false)
    (h2 : listModelsStep env = Except.ok (some r))
    (h3 : pyTruthy r = false) (s : MatterportModelData) :
    (strategy1 env mid) s =
      (Except.ok (), { s with name := .str ("Model " ++ mid ++ " (Not Found)") }) := by
  simp [strategy1, h1, h2, h3]

/-- Strategy 1 when the basic query reports the model absent and the
user-model listing yields a truthy list whose first element is a dict:
the first listed model is substituted. -/
lemma strategy1_substitute (env : MatterportEnv) (mid : String) (r : PyVal)
    (fkvs : List (String × PyVal))
    (h1 : strat1Cond env mid = Except.ok false)
    (h2 : listModelsStep env = Except.ok (some r))
    (h3 : pyTruthy r = true)
    (h4 : index0 r = Except.ok (.dict fkvs)) (s : MatterportModelData) :
    (strategy1 env mid) s =
      (Except.ok (),
        { s with
            id := (fkvs.lookup "id").getD (.str mid)
            name := (fkvs.lookup "name").getD (.str userFirstModelName) }) := by
  simp [strategy1, h1, h2, h3, h4, dictGetD]

/-- Strategy 2 when the extended query supplies a model dict containing a
truthy `summary` dict whose `room_count` passes `> 0` and `range`: the
`modified` timestamp and `total_area` are adopted and the synthesized
rooms are appended. -/
lemma strategy2_rooms_eval (env : MatterportEnv)
    (mkvs skvs : List (String × PyVal)) (n : Nat) (areaOpt : Option ℚ)
    (s : MatterportModelData)
    (hcond : strat2Cond env s.id = Except.ok true)
    (hmodel : strat2Model env s.id = Except.ok (.dict mkvs))
    (hsum : mkvs.lookup "summary" = some (.dict skvs))
    (hne : skvs.isEmpty = false)
    (hgt : pyGt0 ((skvs.lookup "room_count").getD (.int 0)) = Except.ok true)
    (hn : pyRangeLen ((skvs.lookup "room_count").getD (.int 0)) = Except.ok n)
    (harea : (pyTruthy ((skvs.lookup "total_area").getD .none) = false ∧
        areaOpt = Option.none) ∨
      (pyTruthy ((skvs.lookup "total_area").getD .none) = true ∧
        ∃ q, pyDivQ ((skvs.lookup "total_area").getD .none)
            ((skvs.lookup "room_count").getD (.int 0)) = Except.ok q ∧ areaOpt = some q)) :
    (strategy2 env) s = (Except.ok (),
      { s with
          modified_at := (mkvs.lookup "modified").getD .none
          total_area_floor := (skvs.lookup "total_area").getD .none
          rooms := s.rooms ++ mkStrat2Rooms n areaOpt }) := by
  rcases harea with ⟨hta, rfl⟩ | ⟨hta, q, hq, rfl⟩
  · simp [strategy2, hcond, hmodel, hsum, hne, hgt, hn, hta, dictGet, dictGetD, getItemS]
  · simp [strategy2, hcond, hmodel, hsum, hne, hgt, hn, hta, hq, dictGet, dictGetD, getItemS]

end StrategyEvalLemmas

section StringListLemmas

lemma isPrefixOf_append (l m : List Char) : l.isPrefixOf (l ++ m) = true := by
  induction l with
  | nil => simp [List.isPrefixOf]
  | cons c cs ih => simp [List.isPrefixOf, ih]

lemma strHeads_self_append (l t : String) : strHeads l (l ++ t) = true := by
  unfold strHeads
  rw [String.data_append]
  exact isPrefixOf_append l.data t.data

lemma strHeads_self (l : String) : strHeads l l = true := by
  have h := strHeads_self_append l ""
  simpa using h

/-- `> 0` succeeding forces `range` to iterate at least once. -/
lemma rangeLen_pos {v : PyVal} {n : Nat} (hgt : pyGt0 v = Except.ok true)
    (hn : pyRangeLen v = Except.ok n) : 0 < n := by
  cases v with
  | int k =>
    simp [pyGt0] at hgt
    simp [pyRangeLen] at hn
    omega
  | bool b =>
    simp [pyGt0] at hgt
    subst hgt
    simp [pyRangeLen] at hn
    omega
  | none => simp [pyGt0] at hgt
  | float q => simp [pyRangeLen] at hn
  | str s => simp [pyGt0] at hgt
  | list xs => simp [pyGt0] at hgt
  | dict kvs => simp [pyGt0] at hgt

lemma mkStrat2Rooms_length (n : Nat) (a : Option ℚ) : (mkStrat2Rooms n a).length = n := by
  simp [mkStrat2Rooms]

lemma mkStrat2Rooms_labels (n : Nat) (a : Option ℚ) :
    (mkStrat2Rooms n a).map (fun r => r.label) =
      (List.range n).map (fun i => "Habitación " ++ toString (i + 1)) := by
  simp [mkStrat2Rooms, List.map_map]

lemma mkStrat2Rooms_areas (n : Nat) (a : Option ℚ) :
    (mkStrat2Rooms n a).map (fun r => r.area_floor) = (List.range n).map (fun _ => a) := by
  simp [mkStrat2Rooms, List.map_map, Function.comp_def, List.map_const', List.length_range]

lemma locHeads_name_part (t : String) : locHeads ("Propiedad: " ++ t) = false := rfl

lemma locHeads_desc_part (t : String) : locHeads ("Descripción: " ++ t) = false := rfl

lemma locHeads_area_part (t : String) : locHeads ("Área total: " ++ t) = false := rfl

lemma locHeads_rooms_part (t : String) : locHeads ("Habitaciones: " ++ t) = false := rfl

lemma endsWithDot_append (t : String) : endsWithDot (t ++ ".") = true := by
  unfold endsWithDot
  rw [String.data_append]
  simp

end StringListLemmas

/-- C1: the claim (and spec §4.1/§7/P3) states that `extract_model_data`
always returns normally and lets no upstream failure escape.  The code
violates this: with the responses of `envCrash` — basic query reports the
model absent, the user-model listing substitutes a first model whose `id`
is the JSON number `7` and whose `name` is `null`, and the remaining
requests time out — the post-strategy finalization evaluates
`model_data.id[:8]` on the non-string id and the resulting `TypeError`
propagates to the caller.  (Every strategy-level failure *is* absorbed by
the `try/except` blocks; the uncaught raise is in the finalization.) -/
theorem c1_code_bug_eval :
    extract_model_data envCrash "x" =
      Except.error (PyErr.typeError "object is not subscriptable") := rfl

/-- C2: whenever `extract_model_data` returns a `ModelData`, its room
list has length at least 1, and whenever the three strategies left the
rooms empty, the returned rooms are exactly the fixed synthetic four-room
demo set. -/
theorem c2_rooms_never_empty (env : MatterportEnv) (mid : String) (d : MatterportModelData)
    (h : extract_model_data env mid = Except.ok d) :
    1 ≤ d.rooms.length ∧ ((afterS3 env mid).rooms = [] → d.rooms = demo_rooms) := by
  have hr := finalize_ok_rooms (afterS3 env mid) d h
  constructor
  · rcases he : (afterS3 env mid).rooms with _ | ⟨a, l⟩
    · simp [he] at hr
      rw [hr]
      simp [demo_rooms]
    · simp [he] at hr
      rw [hr]
      simp
  · intro he
    simp [he] at hr
    exact hr

/-- Witness for C2 at the unconfigured service and model id `"x"`. -/
theorem c2_witness : 1 ≤ md_demo_x.rooms.length :=
  (c2_rooms_never_empty envU "x" md_demo_x (by rfl)).1

/-- C3 (counterexample): with the responses of `envC3` — the basic query
answers a model whose `name` field is the JSON number `5` — the returned
`ModelData` has `name = 5`, which is not a (non-empty) string, because
pydantic does not validate attribute assignment. -/
theorem c3_counterexample :
    (extract_model_data envC3 "x").map (fun d => (d.name, isNonEmptyStr d.name)) =
      Except.ok (PyVal.int 5, false) := rfl

/-- C3 (amended): whenever `extract_model_data` returns a `ModelData`,
its name is Python-truthy — in particular never `None` and never the
empty string; the placeholder is assigned exactly when no strategy
produced a truthy name. -/
theorem c3_name_always_truthy (env : MatterportEnv) (mid : String) (d : MatterportModelData)
    (h : extract_model_data env mid = Except.ok d) :
    pyTruthy d.name = true :=
  finalize_ok_name_truthy (afterS3 env mid) d h

/-- Witness for C3 (amended) at the unconfigured service. -/
theorem c3_witness : pyTruthy md_demo_x.name = true :=
  c3_name_always_truthy envU "x" md_demo_x (by rfl)

/-- C4 (counterexample): the four synthetic demo rooms are labelled in
Spanish — `"Living"`, `"Cocina"`, `"Dormitorio Principal"`, `"Baño"` —
not `"Living"`, `"Kitchen"`, `"Bedroom"`, `"Bathroom"` as the claim
states. -/
theorem c4_counterexample :
    (extract_model_data envU "x").map (fun d => d.rooms.map fun r => r.label) =
      Except.ok ["Living", "Cocina", "Dormitorio Principal", "Baño"] ∧
    ["Living", "Cocina", "Dormitorio Principal", "Baño"] ≠
      ["Living", "Kitchen", "Bedroom", "Bathroom"] :=
  ⟨rfl, by decide⟩

/-- C4 (amended): an extractor constructed without credentials returns,
for `extract_model_data "x"` and regardless of what the network would
answer, the `ModelData` whose rooms are exactly the four fixed synthetic
rooms — ids `living`/`kitchen`/`bedroom1`/`bathroom`, Spanish labels,
areas 35.5, 12.8, 18.2, 6.5, metric units — and whose `total_area_floor`
is their sum, 73.0. -/
theorem c4_amended :
    ∀ (bo : String → NetOutcome) (lo : NetOutcome) (eo ro : PyVal → NetOutcome),
      extract_model_data ⟨false, bo, lo, eo, ro⟩ "x" = Except.ok md_demo_x ∧
      md_demo_x.rooms.map (fun r => (r.id, r.label, r.area_floor, r.units)) =
        [("living", "Living", some 35.5, "metric"),
         ("kitchen", "Cocina", some 12.8, "metric"),
         ("bedroom1", "Dormitorio Principal", some 18.2, "metric"),
         ("bathroom", "Baño", some 6.5, "metric")] ∧
      md_demo_x.total_area_floor = .float (35.5 + 12.8 + 18.2 + 6.5) ∧
      (35.5 + 12.8 + 18.2 + 6.5 : ℚ) = 73 := by
  intro bo lo eo ro
  refine ⟨rfl, by simp [md_demo_x, demo_rooms], ?_, by norm_num⟩
  show PyVal.float demoRoomsSum = PyVal.float (35.5 + 12.8 + 18.2 + 6.5)
  refine congrArg PyVal.float ?_
  norm_num [demoRoomsSum, demo_rooms, List.foldl]

/-- When strategy 1 leaves a truthy name, strategies 2 and 3 and the
finalization keep both `id` and `name`, and the call returns. -/
lemma extract_of_s1_truthy (env : MatterportEnv) (mid : String)
    (hn : pyTruthy (afterS1 env mid).name = true) :
    (extract_model_data env mid).map (fun d => (d.id, d.name)) =
      Except.ok ((afterS1 env mid).id, (afterS1 env mid).name) := by
  have h2 := strategy2_preserves env (afterS1 env mid)
  have h2id : (afterS2 env mid).id = (afterS1 env mid).id := h2.1
  have h2name : (afterS2 env mid).name = (afterS1 env mid).name := h2.2
  have h3p := strategy3_preserves env (afterS2 env mid)
  have h3id : (afterS3 env mid).id = (afterS1 env mid).id := h3p.1.trans h2id
  have h3name : (afterS3 env mid).name = (afterS1 env mid).name := by
    have h := strategy3_keeps_truthy_name env (afterS2 env mid) (by rw [h2name]; exact hn)
    exact h.trans h2name
  have hfin := finalize_of_truthy_name (afterS3 env mid) (by rw [h3name]; exact hn)
  show (finalize (afterS3 env mid)).map (fun d => (d.id, d.name)) = _
  rw [hfin]
  by_cases hr : (afterS3 env mid).rooms.isEmpty = true <;>
    simp [hr, Except.map, h3id, h3name]

/-- C5 (counterexample): with the responses of `envC5` — model absent and
an empty user-model `results` list — the returned name is the string
`"Model x (Not Found)"` (full id, `(Not Found)` suffix), which is not of
the form `"Property <id-prefix>"` (nor `"Propiedad …"`): the claim's
placeholder shape is wrong for this branch. -/
theorem c5_counterexample :
    (extract_model_data envC5 "x").map (fun d => (d.id, d.name)) =
      Except.ok (PyVal.str "x", PyVal.str "Model x (Not Found)") ∧
    strHeads "Property" "Model x (Not Found)" = false ∧
    strHeads "Propiedad" "Model x (Not Found)" = false :=
  ⟨rfl, by decide, by decide⟩

/-- C5 (amended): when strategy 1 finds the requested model absent and
the user-model listing yields an empty (falsy) `results` value, the call
returns a `ModelData` that keeps the originally requested id and whose
name is exactly `"Model <id> (Not Found)"`. -/
theorem c5_amended (env : MatterportEnv) (mid : String) (r : PyVal)
    (h1 : strat1Cond env mid = Except.ok false)
    (h2 : listModelsStep env = Except.ok (some r))
    (h3 : pyTruthy r = false) :
    (extract_model_data env mid).map (fun d => (d.id, d.name)) =
      Except.ok (.str mid, .str ("Model " ++ mid ++ " (Not Found)")) := by
  have hs1 : afterS1 env mid =
      { initMd mid with name := .str ("Model " ++ mid ++ " (Not Found)") } := by
    show runCaught (strategy1 env mid) (initMd mid) = _
    unfold runCaught
    rw [strategy1_notfound_empty env mid r h1 h2 h3]
  have hn : pyTruthy (afterS1 env mid).name = true := by
    rw [hs1]
    exact pyTruthy_str_append ("Model " ++ mid) " (Not Found)"
      (pyTruthy_str_append "Model " mid rfl)
  have h := extract_of_s1_truthy env mid hn
  rw [hs1] at h
  simpa using h

/-- Witness for C5 (amended) at `envC5`. -/
theorem c5_witness :
    (extract_model_data envC5 "x").map (fun d => (d.id, d.name)) =
      Except.ok (PyVal.str "x", PyVal.str "Model x (Not Found)") :=
  c5_amended envC5 "x" (.list []) (by rfl) (by rfl) (by rfl)

/-- C7: when strategy 1 reports the requested model not found and the
user-model listing returns a non-empty list whose first model is a dict
with a string id and a non-empty string name, the call does not fail and
returns that first model's id and name (regardless of what the extended
and REST strategies answer). -/
theorem c7_first_model_substitution (env : MatterportEnv) (mid : String) (r : PyVal)
    (fkvs : List (String × PyVal)) (i nm : String)
    (h1 : strat1Cond env mid = Except.ok false)
    (h2 : listModelsStep env = Except.ok (some r))
    (h3 : pyTruthy r = true)
    (h4 : index0 r = Except.ok (.dict fkvs))
    (hid : fkvs.lookup "id" = some (.str i))
    (hname : fkvs.lookup "name" = some (.str nm))
    (hnm : nm.data ≠ []) :
    (extract_model_data env mid).map (fun d => (d.id, d.name)) =
      Except.ok (.str i, .str nm) := by
  have hs1 : afterS1 env mid = { initMd mid with id := .str i, name := .str nm } := by
    show runCaught (strategy1 env mid) (initMd mid) = _
    unfold runCaught
    rw [strategy1_substitute env mid r fkvs h1 h2 h3 h4]
    simp [hid, hname]
  have hn : pyTruthy (afterS1 env mid).name = true := by
    rw [hs1]
    show (!nm.data.isEmpty) = true
    simp [List.isEmpty_iff, hnm]
  have h := extract_of_s1_truthy env mid hn
  rw [hs1] at h
  simpa using h

/-- Witness for C7 at the spec's E2E scenario (`envC7`): id `m2`, name
`"Loft"`. -/
theorem c7_witness :
    (extract_model_data envC7 "x").map (fun d => (d.id, d.name)) =
      Except.ok (PyVal.str "m2", PyVal.str "Loft") :=
  c7_first_model_substitution envC7 "x"
    (.list [.dict [("id", .str "m2"), ("name", .str "Loft")]])
    [("id", .str "m2"), ("name", .str "Loft")] "m2" "Loft"
    (by rfl) (by rfl) (by rfl) (by rfl) (by rfl) (by rfl) (by decide)

/-- C6 (counterexample): with the responses of `envC6` — extended query
answering a summary with `total_area = 50.0` and `room_count = 2` — the
synthesized rooms are labelled `"Habitación 1"`, `"Habitación 2"` (and
have ids `room_1`, `room_2`), not `"Room 1"`, `"Room 2"` as the claim
states. -/
theorem c6_counterexample :
    (extract_model_data envC6 "x").map (fun d => d.rooms.map fun r => r.label) =
      Except.ok ["Habitación 1", "Habitación 2"] ∧
    ["Habitación 1", "Habitación 2"] ≠ ["Room 1", "Room 2"] :=
  ⟨rfl, by decide⟩

/-- C6 (amended): when strategy 2's extended query returns a model dict
with a truthy summary whose `room_count` passes `> 0` and `range` with
`n` iterations, the call appends exactly `n` rooms labelled
`"Habitación 1"`, …, `"Habitación n"`, each carrying
`total_area / room_count` as its area when `total_area` is truthy and no
area otherwise. -/
theorem c6_amended (env : MatterportEnv) (mid : String) (idv : PyVal)
    (mkvs skvs : List (String × PyVal)) (n : Nat) (areaOpt : Option ℚ)
    (d : MatterportModelData)
    (hid : (afterS1 env mid).id = idv)
    (hcond : strat2Cond env idv = Except.ok true)
    (hmodel : strat2Model env idv = Except.ok (.dict mkvs))
    (hsum : mkvs.lookup "summary" = some (.dict skvs))
    (hne : skvs.isEmpty = false)
    (hgt : pyGt0 ((skvs.lookup "room_count").getD (.int 0)) = Except.ok true)
    (hn : pyRangeLen ((skvs.lookup "room_count").getD (.int 0)) = Except.ok n)
    (harea : (pyTruthy ((skvs.lookup "total_area").getD .none) = false ∧
        areaOpt = Option.none) ∨
      (pyTruthy ((skvs.lookup "total_area").getD .none) = true ∧
        ∃ q, pyDivQ ((skvs.lookup "total_area").getD .none)
            ((skvs.lookup "room_count").getD (.int 0)) = Except.ok q ∧ areaOpt = some q))
    (hret : extract_model_data env mid = Except.ok d) :
    d.rooms.length = n ∧
    d.rooms.map (fun r => r.label) =
      (List.range n).map (fun i => "Habitación " ++ toString (i + 1)) ∧
    d.rooms.map (fun r => r.area_floor) = (List.range n).map (fun _ => areaOpt) := by
  have h1rooms : (afterS1 env mid).rooms = [] :=
    (strategy1_preserves env mid (initMd mid)).1
  have h2eval := strategy2_rooms_eval env mkvs skvs n areaOpt (afterS1 env mid)
      (by rw [hid]; exact hcond) (by rw [hid]; exact hmodel) hsum hne hgt hn harea
  have h2rooms : (afterS2 env mid).rooms = mkStrat2Rooms n areaOpt := by
    show (runCaught (strategy2 env) (afterS1 env mid)).rooms = _
    unfold runCaught
    rw [h2eval]
    simp [h1rooms]
  have h3rooms : (afterS3 env mid).rooms = mkStrat2Rooms n areaOpt :=
    ((strategy3_preserves env (afterS2 env mid)).2.1).trans h2rooms
  have hfr := finalize_ok_rooms (afterS3 env mid) d hret
  have hmkne : (mkStrat2Rooms n areaOpt).isEmpty = false := by
    have hpos : 0 < n := rangeLen_pos hgt hn
    cases hmk : mkStrat2Rooms n areaOpt with
    | nil =>
      have hlen := mkStrat2Rooms_length n areaOpt
      rw [hmk] at hlen
      simp at hlen
      omega
    | cons a l => rfl
  have hdr : d.rooms = mkStrat2Rooms n areaOpt := by
    rw [h3rooms, hmkne] at hfr
    simpa using hfr
  refine ⟨?_, ?_, ?_⟩
  · rw [hdr]
    exact mkStrat2Rooms_length n areaOpt
  · rw [hdr]
    exact mkStrat2Rooms_labels n areaOpt
  · rw [hdr]
    exact mkStrat2Rooms_areas n areaOpt

/-- Witness for C6 (amended) at `envC6w`: two generically labelled
rooms, no area (the summary carried no truthy `total_area`). -/
theorem c6_witness :
    md_c6w_result.rooms.length = 2 ∧
    md_c6w_result.rooms.map (fun r => r.label) = ["Habitación 1", "Habitación 2"] ∧
    md_c6w_result.rooms.map (fun r => r.area_floor) = [Option.none, Option.none] :=
  c6_amended envC6w "x" (.str "x") mkvsC6w skvsC6w 2 Option.none md_c6w_result
    (by rfl) (by rfl) (by rfl) (by rfl) (by rfl) (by rfl) (by rfl)
    (Or.inl ⟨by rfl, rfl⟩) (by rfl)

section FormatterLemmas

lemma strHeads_append_right (l s t : String) (h : strHeads l s = true) :
    strHeads l (s ++ t) = true := by
  unfold strHeads at h ⊢
  rw [String.data_append]
  simp only [List.isPrefixOf_iff_prefix] at h ⊢
  exact h.trans (List.prefix_append s.data t.data)

/-- Every room's entry in the rooms section starts with that room's
label. -/
lemma room_desc_heads_label (r : MatterportRoom) :
    strHeads r.label (room_desc r) = true := by
  unfold room_desc
  split
  · split
    · simp only [String.append_assoc]
      exact strHeads_self_append _ _
    · exact strHeads_self _
  · exact strHeads_self _

lemma nameSection_no_loc (md : MatterportModelData) :
    (nameSection md).all (fun s => !locHeads s) = true := by
  unfold nameSection
  split <;> simp [locHeads_name_part]

lemma descSection_no_loc (md : MatterportModelData) :
    (descSection md).all (fun s => !locHeads s) = true := by
  unfold descSection
  split <;> simp [locHeads_desc_part]

lemma roomsSection_no_loc (md : MatterportModelData) :
    (roomsSection md).all (fun s => !locHeads s) = true := by
  unfold roomsSection
  split <;> simp [locHeads_rooms_part]

lemma areaSection_no_loc (md : MatterportModelData) (p4 : List String)
    (h : areaSection md = Except.ok p4) :
    p4.all (fun s => !locHeads s) = true := by
  unfold areaSection at h
  split at h
  · split at h
    · exact absurd h (by simp)
    · injection h with h
      subst h
      simp only [List.all_cons, List.all_nil, Bool.and_true, String.append_assoc]
      simp [locHeads_area_part]
  · injection h with h
    subst h
    rfl

end FormatterLemmas

/-- C8: `format_for_agent_context` is deterministic (two calls on the
same value coincide), and every room of `md.rooms` appears in the output
in declared order: the rooms section is the last context part, built as
the comma-join of `md.rooms.map room_desc` (one entry per room, in list
order), and each entry starts with its room's label. -/
theorem c8_deterministic_ordered (md : MatterportModelData) (parts : List String)
    (hp : context_parts md = Except.ok parts) :
    format_for_agent_context md = format_for_agent_context md ∧
    (md.rooms.isEmpty = false →
      parts.getLast? = some ("Habitaciones: " ++
        String.intercalate ", " (md.rooms.map room_desc))) ∧
    md.rooms.all (fun r => strHeads r.label (room_desc r)) = true := by
  refine ⟨rfl, ?_, ?_⟩
  · intro hrooms
    unfold context_parts at hp
    split at hp
    · exact absurd hp (by simp)
    · split at hp
      · exact absurd hp (by simp)
      · injection hp with hpp
        subst hpp
        simp [roomsSection, hrooms]
  · simp only [List.all_eq_true]
    intro r hr
    exact room_desc_heads_label r

/-- Witness for C8 at `md_fmt_w`. -/
theorem c8_witness :
    (["Propiedad: Casa", "Habitaciones: Sala, Patio"] : List String).getLast? =
      some ("Habitaciones: Sala, Patio") ∧
    md_fmt_w.rooms.all (fun r => strHeads r.label (room_desc r)) = true :=
  ⟨(c8_deterministic_ordered md_fmt_w ["Propiedad: Casa", "Habitaciones: Sala, Patio"]
      (by rfl)).2.1 (by rfl),
    (c8_deterministic_ordered md_fmt_w ["Propiedad: Casa", "Habitaciones: Sala, Patio"]
      (by rfl)).2.2⟩

/-- C9: when both `address_line1` and `city` are `None`, no part of the
formatted context is an `Ubicación` (location) section — the section is
omitted entirely, not rendered empty. -/
theorem c9_no_location_section (md : MatterportModelData) (parts : List String)
    (h1 : md.address_line1 = PyVal.none) (h2 : md.city = PyVal.none)
    (hp : context_parts md = Except.ok parts) :
    parts.all (fun s => !locHeads s) = true := by
  have haddr : addressSection md = Except.ok [] := by
    simp [addressSection, addressParts, h1, h2]
  unfold context_parts at hp
  split at hp
  · exact absurd hp (by simp)
  · rename_i p3 hp3
    split at hp
    · exact absurd hp (by simp)
    · rename_i p4 hp4
      injection hp with hpp
      subst hpp
      have hp3e : p3 = [] := by
        rw [haddr] at hp3
        injection hp3 with h
        exact h.symm
      subst hp3e
      simp only [List.all_append, Bool.and_eq_true]
      exact ⟨⟨⟨⟨nameSection_no_loc md, descSection_no_loc md⟩, rfl⟩,
        areaSection_no_loc md p4 hp4⟩, roomsSection_no_loc md⟩

/-- Witness for C9 at `md_fmt_w`. -/
theorem c9_witness :
    (["Propiedad: Casa", "Habitaciones: Sala, Patio"] : List String).all
      (fun s => !locHeads s) = true :=
  c9_no_location_section md_fmt_w ["Propiedad: Casa", "Habitaciones: Sala, Patio"]
    (by rfl) (by rfl) (by rfl)

/-- C10: every successful `format_for_agent_context` result ends in a
period (the terminal `"."` is appended unconditionally), and on a
`ModelData` with no name, description, address data, total area and no
rooms the output is exactly `"."`. -/
theorem c10_trailing_period :
    (∀ (md : MatterportModelData) (s : String),
      format_for_agent_context md = Except.ok s → endsWithDot s = true) ∧
    format_for_agent_context md_empty = Except.ok "." := by
  constructor
  · intro md s h
    unfold format_for_agent_context at h
    split at h
    · exact absurd h (by simp)
    · injection h with h
      subst h
      exact endsWithDot_append _
  · rfl

/-- Witness for C10: the one-character output `"."` ends in a period. -/
theorem c10_witness : endsWithDot "." = true :=
  c10_trailing_period.1 md_empty "." (by rfl)
